import Mathlib

/-!
Shallow embedding of the score-tracking web application
(`gameapp/models.py`, `gameapp/views.py`).

The data model is the `Score` table (owned by a `User`), and the operations
are the request handlers: `save_score` (JSON score ingestion), `register`
(account creation), and the page handlers `home`, `game_page`,
`how_to_play`, `scores_page` (the last one runs the four aggregation
queries over the score store).

External library behaviour that the handlers rely on is modelled at its
interface: `json.loads` either fails with an exception text or yields the
parsed payload; the ORM `order_by` is a stable sort on the given key; the
`login_required` decorator redirects an unauthenticated caller to the
login flow; the relational store enforces the NOT NULL constraint that
`models.IntegerField()` (with its default `null=False`) declares for the
`score` column.
-/

namespace GameApp

/-- A row of the `auth_user` table, as far as `gameapp` reads it:
`Score.user` is a foreign key into it and the statistics query joins on
`user__username` (`models.py`, `views.py`). -/
structure User where
  id : Nat
  username : String
deriving DecidableEq, Repr

/-- A row of the `Score` table (`models.py`): owning user (FK), integer
score, creation timestamp (`auto_now_add`), `game_mode` and `player_name`
labels.  The `score` column is `models.IntegerField()`, hence NOT NULL,
so a stored row always holds an actual integer. -/
structure ScoreRec where
  id : Nat
  user : Nat
  score : Int
  timestamp : Nat
  game_mode : String
  player_name : String
deriving DecidableEq, Repr

/-- The relational store: the `auth_user` and `gameapp_score` tables,
plus the id sequence and a discrete clock supplying `auto_now_add`
timestamps (monotone in insertion order). -/
structure Db where
  users : List User
  scores : List ScoreRec
  nextId : Nat
  nextUserId : Nat
  clock : Nat
deriving DecidableEq, Repr

/-- `models.py` line 9: `game_mode = models.CharField(max_length=50, default="standard")`.
The model-level default for the `game_mode` column. -/
def gameModeModelDefault : String := "standard"

/-- `models.py` line 11: `player_name = models.CharField(..., default="Unknown Player")`.
The model-level default for the `player_name` column. -/
def playerNameModelDefault : String := "Unknown Player"

/-- `Score.objects.create(user=..., score=..., game_mode=..., player_name=...)`
at the store level.  The Python call site passes whatever
`data.get('score')` returned, possibly `None`; the `score` column is
declared `models.IntegerField()` (NOT NULL), so inserting `None` makes the
store raise an integrity error instead of writing a row.  A successful
insert appends one row with a fresh id and the current clock value. -/
def scoreCreate (db : Db) (userId : Nat) (scoreVal : Option Int)
    (gameMode : String) (playerName : String) : Except String Db :=
  match scoreVal with
  | none => Except.error "NOT NULL constraint failed: gameapp_score.score"
  | some v =>
    Except.ok { db with
      scores := db.scores ++
        [{ id := db.nextId, user := userId, score := v,
           timestamp := db.clock, game_mode := gameMode,
           player_name := playerName }],
      nextId := db.nextId + 1,
      clock := db.clock + 1 }

/-- The fields of a parsed JSON score payload that `save_score` reads with
`data.get(...)`: each is absent (`none`) or present. -/
structure Payload where
  score : Option Int
  game_mode : Option String
  player_name : Option String
deriving DecidableEq, Repr

/-- A request body handed to `json.loads`: either it is not valid JSON
(with the exception text the parser raises) or it parses to a payload. -/
inductive Body where
  | malformed (errText : String)
  | wellFormed (data : Payload)
deriving DecidableEq, Repr

/-- `json.loads(request.body)`: raises (modelled as `Except.error`) on a
malformed body, otherwise yields the parsed payload. -/
def jsonLoads : Body → Except String Payload
  | Body.malformed e => Except.error e
  | Body.wellFormed d => Except.ok d

/-- The two JSON bodies `save_score` can answer with:
`{'status': 'success'}` or `{'status': 'error', 'message': msg}`. -/
inductive JsonBody where
  | success
  | error (message : String)
deriving DecidableEq, Repr

/-- A `JsonResponse`: HTTP status code plus the JSON body.
`JsonResponse({'status': 'success'})` has the default status 200. -/
structure JsonResp where
  status : Nat
  body : JsonBody
deriving DecidableEq, Repr

/-- `views.py` `save_score` (behind `@login_required @require_POST`, so
`currentUser` is the authenticated caller of an authenticated POST):
parse the body, read `score` / `game_mode` / `player_name` with the two
`'Unknown Player'` fallbacks, create the Score row, answer
`{'status': 'success'}`; any exception from parsing or persistence is
caught and answered as status 400 with `str(e)` as the message, leaving
the store unchanged. -/
def save_score (currentUser : Nat) (body : Body) (db : Db) : JsonResp × Db :=
  match jsonLoads body with
  | Except.error e => ({ status := 400, body := JsonBody.error e }, db)
  | Except.ok data =>
    let score_value := data.score
    let game_mode_value := data.game_mode.getD "Unknown Player"
    let player_name_value := data.player_name.getD "Unknown Player"
    match scoreCreate db currentUser score_value game_mode_value player_name_value with
    | Except.error e => ({ status := 400, body := JsonBody.error e }, db)
    | Except.ok db2 => ({ status := 200, body := JsonBody.success }, db2)

/-- `order_by('-timestamp')` key order: newest first. -/
def byTimestampDesc (a b : ScoreRec) : Prop := b.timestamp ≤ a.timestamp

instance : DecidableRel byTimestampDesc :=
  fun a b => inferInstanceAs (Decidable (b.timestamp ≤ a.timestamp))

instance : IsTotal ScoreRec byTimestampDesc :=
  ⟨fun a b => Nat.le_total b.timestamp a.timestamp⟩

instance : IsTrans ScoreRec byTimestampDesc :=
  ⟨fun _ _ _ h1 h2 => Nat.le_trans h2 h1⟩

/-- `order_by('-score')` key order: highest score first. -/
def byScoreDesc (a b : ScoreRec) : Prop := b.score ≤ a.score

instance : DecidableRel byScoreDesc :=
  fun a b => inferInstanceAs (Decidable (b.score ≤ a.score))

instance : IsTotal ScoreRec byScoreDesc :=
  ⟨fun a b => Int.le_total b.score a.score⟩

instance : IsTrans ScoreRec byScoreDesc :=
  ⟨fun _ _ _ h1 h2 => Int.le_trans h2 h1⟩

/-- `Score.objects.all().order_by('-timestamp')`: every Score row, newest
first (a stable sort of the table on the timestamp, descending). -/
def allScoresQuery (db : Db) : List ScoreRec :=
  List.insertionSort byTimestampDesc db.scores

/-- `Score.objects.filter(user=request.user).order_by('-timestamp')`:
the caller's Score rows, newest first. -/
def userScoresQuery (db : Db) (u : Nat) : List ScoreRec :=
  List.insertionSort byTimestampDesc (db.scores.filter (fun s => s.user == u))

/-- `Score.objects.all().order_by('-score')[:10]`: all Score rows sorted
by score descending, truncated to the first 10. -/
def topScoresQuery (db : Db) : List ScoreRec :=
  (List.insertionSort byScoreDesc db.scores).take 10

/-- The `user__username` join: the username of the owning `auth_user`
row.  Foreign-key integrity guarantees the owner exists; the empty-string
fallback is unreachable on a well-formed store. -/
def usernameOf (db : Db) (uid : Nat) : String :=
  match db.users.find? (fun u => u.id == uid) with
  | some u => u.username
  | none => ""

/-- One row of the `values('user__username').annotate(...)` result:
`total_games=Count('id')`, `avg_score=Avg('score')`,
`best_score=Max('score')`. -/
structure UserStat where
  username : String
  total_games : Nat
  avg_score : Rat
  best_score : Int
deriving DecidableEq, Repr

/-- The group of one username: its Score rows. -/
def groupOf (db : Db) (un : String) : List ScoreRec :=
  db.scores.filter (fun s => usernameOf db s.user == un)

/-- The aggregates of one username's group: count of its Score rows,
arithmetic mean of `score` (exact, as a rational), and maximum `score`.
Every group arises from at least one Score row, so the group list is
never empty and the `0` fallbacks of the mean and the maximum are
unreachable. -/
def statFor (db : Db) (un : String) : UserStat :=
  { username := un,
    total_games := (groupOf db un).length,
    avg_score := (((groupOf db un).map (fun s => (s.score : Rat))).sum) /
      ((groupOf db un).length : Rat),
    best_score := (((groupOf db un).map (fun s => s.score)).max?).getD 0 }

/-- `order_by('-best_score')` key order on the annotated rows. -/
def byBestScoreDesc (a b : UserStat) : Prop := b.best_score ≤ a.best_score

instance : DecidableRel byBestScoreDesc :=
  fun a b => inferInstanceAs (Decidable (b.best_score ≤ a.best_score))

instance : IsTotal UserStat byBestScoreDesc :=
  ⟨fun a b => Int.le_total b.best_score a.best_score⟩

instance : IsTrans UserStat byBestScoreDesc :=
  ⟨fun _ _ _ h1 h2 => Int.le_trans h2 h1⟩

/-- `Score.objects.values('user__username').annotate(total_games=Count('id'),
avg_score=Avg('score'), best_score=Max('score')).order_by('-best_score')`:
one aggregate row per distinct owning username, ordered by best score
descending. -/
def userStatsQuery (db : Db) : List UserStat :=
  List.insertionSort byBestScoreDesc
    (((db.scores.map (fun s => usernameOf db s.user)).dedup).map (statFor db))

/-- The context dict `scores_page` hands to `render` for `scores.html`. -/
structure ScoresContext where
  all_scores : List ScoreRec
  user_scores : List ScoreRec
  top_scores : List ScoreRec
  user_stats : List UserStat
deriving DecidableEq, Repr

/-- What a page handler answers with: a redirect (to a named route) or a
rendered template, the scores page carrying its context data. -/
inductive PageResponse where
  | redirect (target : String)
  | rendered (template : String) (ctx : Option ScoresContext)
deriving DecidableEq, Repr

/-- The `@login_required` decorator: with no authenticated session the
wrapped view is not invoked and the response is a redirect to the login
flow; otherwise the view runs for the authenticated user. -/
def login_required (view : Nat → Db → PageResponse) (auth : Option Nat)
    (db : Db) : PageResponse :=
  match auth with
  | none => PageResponse.redirect "login"
  | some u => view u db

/-- `views.py` `home`: render `home.html` (authentication gated). -/
def home (auth : Option Nat) (db : Db) : PageResponse :=
  login_required (fun _ _ => PageResponse.rendered "home.html" none) auth db

/-- `views.py` `game_page`: render `game.html` (authentication gated). -/
def game_page (auth : Option Nat) (db : Db) : PageResponse :=
  login_required (fun _ _ => PageResponse.rendered "game.html" none) auth db

/-- `views.py` `how_to_play`: render `how_to_play.html` (authentication
gated). -/
def how_to_play (auth : Option Nat) (db : Db) : PageResponse :=
  login_required (fun _ _ => PageResponse.rendered "how_to_play.html" none) auth db

/-- The body of `scores_page` once authenticated: run the four
aggregation queries and render `scores.html` with the resulting context. -/
def scores_page_view (u : Nat) (db : Db) : PageResponse :=
  PageResponse.rendered "scores.html" (some
    { all_scores := allScoresQuery db,
      user_scores := userScoresQuery db u,
      top_scores := topScoresQuery db,
      user_stats := userStatsQuery db })

/-- `views.py` `scores_page`: authentication gated aggregation page. -/
def scores_page (auth : Option Nat) (db : Db) : PageResponse :=
  login_required scores_page_view auth db

/-- What the `register` POST branch ends in: re-render the registration
form after `messages.error(...)`, or `messages.success(...)` followed by
`redirect("login")`. -/
inductive RegisterOutcome where
  | renderForm (message : String)
  | redirectLogin (message : String)
deriving DecidableEq, Repr

/-- `User.objects.filter(username=username).exists()`. -/
def username_exists (users : List User) (username : String) : Bool :=
  users.any (fun u => u.username == username)

/-- `User.objects.create_user(username=username, password=password)`:
append a fresh `auth_user` row (the password is hashed and stored by the
auth framework, outside the score data model). -/
def create_user (db : Db) (username : String) : Db :=
  { db with
    users := db.users ++ [{ id := db.nextUserId, username := username }],
    nextUserId := db.nextUserId + 1 }

/-- `views.py` `register`, POST branch: reject mismatched passwords
first, then a taken username, else create the user and redirect to the
login page.  Rejections leave the store unchanged. -/
def register (username password password2 : String) (db : Db) :
    RegisterOutcome × Db :=
  if password ≠ password2 then
    (RegisterOutcome.renderForm "Passwords do not match", db)
  else if username_exists db.users username then
    (RegisterOutcome.renderForm "Username already taken", db)
  else
    (RegisterOutcome.redirectLogin "Account created successfully!",
      create_user db username)

/-- An empty store. -/
def db0 : Db := { users := [], scores := [], nextId := 0, nextUserId := 0, clock := 0 }

/-- A store with two users: alice owns scores `[10, 20, 30]` and bob owns
`[5, 100]`. -/
def exampleDb : Db :=
  { users := [{ id := 1, username := "alice" }, { id := 2, username := "bob" }],
    scores :=
      [{ id := 0, user := 1, score := 10, timestamp := 0, game_mode := "standard", player_name := "A" },
       { id := 1, user := 1, score := 20, timestamp := 1, game_mode := "standard", player_name := "A" },
       { id := 2, user := 1, score := 30, timestamp := 2, game_mode := "standard", player_name := "A" },
       { id := 3, user := 2, score := 5, timestamp := 3, game_mode := "standard", player_name := "B" },
       { id := 4, user := 2, score := 100, timestamp := 4, game_mode := "standard", player_name := "B" }],
    nextId := 5, nextUserId := 3, clock := 5 }

/-- C3: for every state of the Score store, the top-N leaderboard query
returns at most 10 records, and the result is sorted by score descending:
every adjacent pair (a, b) satisfies `b.score ≤ a.score`. -/
theorem topn_leaderboard_bounded_and_sorted (db : Db) :
    (topScoresQuery db).length ≤ 10 ∧
    List.Chain' (fun a b => b.score ≤ a.score) (topScoresQuery db) := by
  constructor
  · exact List.length_take_le 10 _
  · have hp : List.Pairwise byScoreDesc (List.insertionSort byScoreDesc db.scores) :=
      List.sorted_insertionSort byScoreDesc db.scores
    have hp2 : List.Pairwise byScoreDesc (topScoresQuery db) :=
      List.Pairwise.sublist (List.take_sublist 10 _) hp
    exact List.Pairwise.chain' hp2

/-- C7: the full-history query returns all Score records (a permutation
of the store) ordered by timestamp descending, and the user-history query
returns exactly the caller's Score records in the same descending
timestamp order. -/
theorem history_queries_sorted_and_complete (db : Db) (u : Nat) :
    (allScoresQuery db).Perm db.scores ∧
    List.Chain' (fun a b => b.timestamp ≤ a.timestamp) (allScoresQuery db) ∧
    (userScoresQuery db u).Perm (db.scores.filter (fun s => s.user == u)) ∧
    List.Chain' (fun a b => b.timestamp ≤ a.timestamp) (userScoresQuery db u) ∧
    (∀ s : ScoreRec, s ∈ userScoresQuery db u ↔ s ∈ db.scores ∧ s.user = u) := by
  refine ⟨List.perm_insertionSort byTimestampDesc db.scores, ?_,
    List.perm_insertionSort byTimestampDesc _, ?_, ?_⟩
  · exact List.Pairwise.chain' (List.sorted_insertionSort byTimestampDesc db.scores)
  · exact List.Pairwise.chain' (List.sorted_insertionSort byTimestampDesc _)
  · intro s
    unfold userScoresQuery
    rw [(List.perm_insertionSort byTimestampDesc _).mem_iff, List.mem_filter]
    simp

/-- C6: every protected page handler answers an unauthenticated request
with a redirect to the login flow, and the `login_required` gate does so
without invoking the wrapped view body at all (the response is the same
redirect for every possible view body and store state). -/
theorem unauthenticated_requests_redirect (db : Db) :
    home none db = PageResponse.redirect "login" ∧
    game_page none db = PageResponse.redirect "login" ∧
    how_to_play none db = PageResponse.redirect "login" ∧
    scores_page none db = PageResponse.redirect "login" ∧
    (∀ view : Nat → Db → PageResponse,
      login_required view none db = PageResponse.redirect "login") :=
  ⟨rfl, rfl, rfl, rfl, fun _ => rfl⟩

theorem groupOf_alice : groupOf exampleDb "alice" =
    [{ id := 0, user := 1, score := 10, timestamp := 0, game_mode := "standard", player_name := "A" },
     { id := 1, user := 1, score := 20, timestamp := 1, game_mode := "standard", player_name := "A" },
     { id := 2, user := 1, score := 30, timestamp := 2, game_mode := "standard", player_name := "A" }] := by
  decide

theorem groupOf_bob : groupOf exampleDb "bob" =
    [{ id := 3, user := 2, score := 5, timestamp := 3, game_mode := "standard", player_name := "B" },
     { id := 4, user := 2, score := 100, timestamp := 4, game_mode := "standard", player_name := "B" }] := by
  decide

theorem statFor_alice : statFor exampleDb "alice" =
    { username := "alice", total_games := 3, avg_score := 20, best_score := 30 } := by
  unfold statFor
  rw [groupOf_alice]
  norm_num [List.sum]

theorem statFor_bob : statFor exampleDb "bob" =
    { username := "bob", total_games := 2, avg_score := 105 / 2, best_score := 100 } := by
  unfold statFor
  rw [groupOf_bob]
  norm_num [List.sum]

/-- C4: the per-user statistics query groups the Score records by the
owning user's username, computes per group the record count, the
arithmetic mean of the scores and the maximum score, and orders the
groups by maximum score descending; on the example store, alice's group
of scores `[10, 20, 30]` yields count 3, average 20 and maximum 30
(and bob's group `[5, 100]` sorts first with maximum 100). -/
theorem user_stats_grouped_and_sorted (db : Db) :
    List.Chain' (fun a b => b.best_score ≤ a.best_score) (userStatsQuery db) ∧
    (∀ st, st ∈ userStatsQuery db →
      st.total_games =
        (db.scores.filter (fun s => usernameOf db s.user == st.username)).length ∧
      st.avg_score =
        (((db.scores.filter (fun s => usernameOf db s.user == st.username)).map
            (fun s => (s.score : Rat))).sum) / (st.total_games : Rat) ∧
      st.best_score =
        ((((db.scores.filter (fun s => usernameOf db s.user == st.username)).map
            (fun s => s.score)).max?).getD 0)) ∧
    userStatsQuery exampleDb =
      [{ username := "bob", total_games := 2, avg_score := 105 / 2, best_score := 100 },
       { username := "alice", total_games := 3, avg_score := 20, best_score := 30 }] := by
  refine ⟨?_, ?_, ?_⟩
  · exact List.Pairwise.chain' (List.sorted_insertionSort byBestScoreDesc _)
  · intro st hst
    unfold userStatsQuery at hst
    rw [(List.perm_insertionSort byBestScoreDesc _).mem_iff] at hst
    obtain ⟨un, _, rfl⟩ := List.mem_map.mp hst
    exact ⟨rfl, rfl, rfl⟩
  · have hshape : userStatsQuery exampleDb =
        [statFor exampleDb "bob", statFor exampleDb "alice"] := rfl
    rw [hshape, statFor_bob, statFor_alice]

theorem user_stats_grouped_and_sorted_witness :
    ({ username := "alice", total_games := 3, avg_score := 20,
       best_score := 30 } : UserStat) ∈ userStatsQuery exampleDb ∧
    ({ username := "alice", total_games := 3, avg_score := 20,
       best_score := 30 } : UserStat).total_games =
      (exampleDb.scores.filter
        (fun s => usernameOf exampleDb s.user ==
          ({ username := "alice", total_games := 3, avg_score := 20,
             best_score := 30 } : UserStat).username)).length :=
  have hmem : ({ username := "alice", total_games := 3, avg_score := 20,
                 best_score := 30 } : UserStat) ∈ userStatsQuery exampleDb := by
    rw [show userStatsQuery exampleDb =
      [statFor exampleDb "bob", statFor exampleDb "alice"] from rfl, statFor_alice]
    exact List.mem_cons_of_mem _ (List.mem_cons_self _ _)
  ⟨hmem,
   ((user_stats_grouped_and_sorted exampleDb).2.1
     { username := "alice", total_games := 3, avg_score := 20, best_score := 30 }
     hmem).1⟩

/-- C1: an authenticated POST whose body parses as JSON containing a
score value creates exactly one Score record — appended to the store —
owned by the authenticated caller, with the submitted score as value and
the submitted or placeholder-defaulted `game_mode`/`player_name`, and is
answered with status 200 and the success acknowledgment body. -/
theorem save_score_valid_creates_one (u : Nat) (p : Payload) (v : Int) (db : Db)
    (hs : p.score = some v) :
    (save_score u (Body.wellFormed p) db).1 =
      { status := 200, body := JsonBody.success } ∧
    (save_score u (Body.wellFormed p) db).2.scores = db.scores ++
      [{ id := db.nextId, user := u, score := v, timestamp := db.clock,
         game_mode := p.game_mode.getD "Unknown Player",
         player_name := p.player_name.getD "Unknown Player" }] := by
  simp [save_score, jsonLoads, scoreCreate, hs]

theorem save_score_valid_creates_one_witness :
    (save_score 1 (Body.wellFormed
        { score := some 5, game_mode := none, player_name := some "Z" }) db0).1 =
      { status := 200, body := JsonBody.success } ∧
    (save_score 1 (Body.wellFormed
        { score := some 5, game_mode := none, player_name := some "Z" }) db0).2.scores =
      db0.scores ++
      [{ id := db0.nextId, user := 1, score := 5, timestamp := db0.clock,
         game_mode := "Unknown Player", player_name := "Z" }] :=
  save_score_valid_creates_one 1
    { score := some 5, game_mode := none, player_name := some "Z" } 5 db0 rfl

/-- C2: an authenticated POST whose body fails to parse as JSON is
answered with status 400 and an error message, and the store is
unchanged (no Score record is written). -/
theorem save_score_malformed_400 (u : Nat) (body : Body) (db : Db) (e : String)
    (h : jsonLoads body = Except.error e) :
    save_score u body db = ({ status := 400, body := JsonBody.error e }, db) := by
  unfold save_score
  rw [h]

theorem save_score_malformed_400_witness :
    save_score 1 (Body.malformed "Expecting value: line 1 column 1 (char 0)") db0 =
      ({ status := 400,
         body := JsonBody.error "Expecting value: line 1 column 1 (char 0)" }, db0) :=
  save_score_malformed_400 1
    (Body.malformed "Expecting value: line 1 column 1 (char 0)") db0
    "Expecting value: line 1 column 1 (char 0)" rfl

/-- C5 counterexample: on a mismatched-password registration the code
rejects with the message "Passwords do not match" (capitalized), which is
not the message "passwords do not match" the claim states; likewise the
taken-username message is "Username already taken". -/
theorem register_messages_differ_from_claim :
    (register "u" "a" "b" db0).1 =
      RegisterOutcome.renderForm "Passwords do not match" ∧
    RegisterOutcome.renderForm "Passwords do not match" ≠
      RegisterOutcome.renderForm "passwords do not match" ∧
    (register "alice" "p" "p" exampleDb).1 =
      RegisterOutcome.renderForm "Username already taken" ∧
    RegisterOutcome.renderForm "Username already taken" ≠
      RegisterOutcome.renderForm "username already taken" := by
  refine ⟨rfl, ?_, ?_, ?_⟩ <;> decide

/-- C5 (amended): registration first rejects mismatched passwords with
"Passwords do not match" (store unchanged, even when the username is also
taken), else rejects an already-taken username with "Username already
taken" (store unchanged), else creates the user, reports "Account created
successfully!" and redirects to the login flow. -/
theorem register_checks_in_order (username password password2 : String) (db : Db) :
    (password ≠ password2 →
      register username password password2 db =
        (RegisterOutcome.renderForm "Passwords do not match", db)) ∧
    (password = password2 → username_exists db.users username = true →
      register username password password2 db =
        (RegisterOutcome.renderForm "Username already taken", db)) ∧
    (password = password2 → username_exists db.users username = false →
      register username password password2 db =
        (RegisterOutcome.redirectLogin "Account created successfully!",
          create_user db username) ∧
      (register username password password2 db).2.users =
        db.users ++ [{ id := db.nextUserId, username := username }]) := by
  refine ⟨fun h1 => ?_, fun h1 h2 => ?_, fun h1 h2 => ?_⟩
  · simp [register, h1]
  · simp [register, h1, h2]
  · constructor
    · simp [register, h1, h2]
    · simp [register, h1, h2, create_user]

theorem register_checks_in_order_witness :
    register "u" "a" "b" db0 =
      (RegisterOutcome.renderForm "Passwords do not match", db0) ∧
    register "alice" "p" "p" exampleDb =
      (RegisterOutcome.renderForm "Username already taken", exampleDb) ∧
    register "carol" "p" "p" db0 =
      (RegisterOutcome.redirectLogin "Account created successfully!",
        create_user db0 "carol") :=
  ⟨(register_checks_in_order "u" "a" "b" db0).1 (by decide),
   (register_checks_in_order "alice" "p" "p" exampleDb).2.1 rfl (by decide),
   ((register_checks_in_order "carol" "p" "p" db0).2.2 rfl (by decide)).1⟩

/-- C8 counterexample: an authenticated POST whose body parses as JSON
with no score field does NOT result in a written record with a null
value: the non-nullable `score` column rejects the insert and the
request is answered 400 with the store unchanged. -/
theorem missing_score_writes_no_record :
    save_score 1 (Body.wellFormed
        { score := none, game_mode := none, player_name := none }) db0 =
      ({ status := 400,
         body := JsonBody.error "NOT NULL constraint failed: gameapp_score.score" },
       db0) ∧
    (save_score 1 (Body.wellFormed
        { score := none, game_mode := none, player_name := none }) db0).2.scores =
      ([] : List ScoreRec) := by
  exact ⟨rfl, rfl⟩

/-- C8 (amended): when the parsed payload has no score field the
endpoint passes `None` through to the storage create call, but the
`score` column is declared `models.IntegerField()` (non-nullable), so
the store rejects the insert; the broad exception handler answers 400
with the constraint-failure text and no record is written. -/
theorem missing_score_insert_rejected (u : Nat) (p : Payload) (db : Db)
    (h : p.score = none) :
    scoreCreate db u p.score (p.game_mode.getD "Unknown Player")
        (p.player_name.getD "Unknown Player") =
      Except.error "NOT NULL constraint failed: gameapp_score.score" ∧
    save_score u (Body.wellFormed p) db =
      ({ status := 400,
         body := JsonBody.error "NOT NULL constraint failed: gameapp_score.score" },
       db) := by
  constructor
  · rw [h]
    rfl
  · simp [save_score, jsonLoads, scoreCreate, h]

theorem missing_score_insert_rejected_witness :
    scoreCreate exampleDb 1 (none : Option Int) "Unknown Player" "Unknown Player" =
      Except.error "NOT NULL constraint failed: gameapp_score.score" ∧
    save_score 1 (Body.wellFormed
        { score := none, game_mode := none, player_name := none }) exampleDb =
      ({ status := 400,
         body := JsonBody.error "NOT NULL constraint failed: gameapp_score.score" },
       exampleDb) :=
  missing_score_insert_rejected 1
    { score := none, game_mode := none, player_name := none } exampleDb rfl

/-- C9: the ingestion handler is total — every authenticated POST is
answered either with the 200 success response (store extended) or with a
400 structured error response (store unchanged); a JSON parse failure is
answered 400 carrying the parser's raw exception text, and a persistence
failure is answered 400 carrying the store's raw error text. -/
theorem save_score_total_and_structured (u : Nat) (body : Body) (db : Db) :
    ((save_score u body db).1 = { status := 200, body := JsonBody.success } ∨
      ∃ m, (save_score u body db).1 = { status := 400, body := JsonBody.error m } ∧
        (save_score u body db).2 = db) ∧
    (∀ e, jsonLoads body = Except.error e →
      save_score u body db = ({ status := 400, body := JsonBody.error e }, db)) ∧
    (∀ p e, jsonLoads body = Except.ok p →
      scoreCreate db u p.score (p.game_mode.getD "Unknown Player")
          (p.player_name.getD "Unknown Player") = Except.error e →
      save_score u body db = ({ status := 400, body := JsonBody.error e }, db)) := by
  refine ⟨?_, fun e he => ?_, fun p e hp he => ?_⟩
  · cases body with
    | malformed e => exact Or.inr ⟨e, rfl, rfl⟩
    | wellFormed p =>
      cases hsc : p.score with
      | none =>
        refine Or.inr ⟨"NOT NULL constraint failed: gameapp_score.score", ?_, ?_⟩ <;>
          simp [save_score, jsonLoads, scoreCreate, hsc]
      | some v =>
        refine Or.inl ?_
        simp [save_score, jsonLoads, scoreCreate, hsc]
  · unfold save_score
    rw [he]
  · simp only [save_score]
    rw [hp]
    simp [he]

theorem save_score_total_and_structured_witness :
    ((save_score 1 (Body.malformed "boom") db0).1 =
        { status := 200, body := JsonBody.success } ∨
      ∃ m, (save_score 1 (Body.malformed "boom") db0).1 =
          { status := 400, body := JsonBody.error m } ∧
        (save_score 1 (Body.malformed "boom") db0).2 = db0) ∧
    save_score 1 (Body.malformed "boom") db0 =
      ({ status := 400, body := JsonBody.error "boom" }, db0) ∧
    save_score 1 (Body.wellFormed
        { score := none, game_mode := none, player_name := none }) db0 =
      ({ status := 400,
         body := JsonBody.error "NOT NULL constraint failed: gameapp_score.score" },
       db0) :=
  ⟨(save_score_total_and_structured 1 (Body.malformed "boom") db0).1,
   (save_score_total_and_structured 1 (Body.malformed "boom") db0).2.1 "boom" rfl,
   (save_score_total_and_structured 1 (Body.wellFormed
       { score := none, game_mode := none, player_name := none }) db0).2.2
     { score := none, game_mode := none, player_name := none }
     "NOT NULL constraint failed: gameapp_score.score" rfl rfl⟩

/-- C10: when a submitted payload (with a score) omits the game-mode
field, the created record's `game_mode` is the placeholder
"Unknown Player" — the same placeholder as the display-name default —
and not the model-level default "standard"; more generally, the
ingestion path always supplies `data.get('game_mode', 'Unknown Player')`
explicitly, so the stored mode is determined by the payload and the
placeholder alone, never by the model default. -/
theorem omitted_game_mode_uses_placeholder (u : Nat) (p : Payload) (v : Int)
    (db : Db) (hs : p.score = some v) :
    (save_score u (Body.wellFormed p) db).2.scores = db.scores ++
      [{ id := db.nextId, user := u, score := v, timestamp := db.clock,
         game_mode := p.game_mode.getD "Unknown Player",
         player_name := p.player_name.getD "Unknown Player" }] ∧
    (p.game_mode = none →
      ((save_score u (Body.wellFormed p) db).2.scores.getLast?.map
          (fun s => s.game_mode)) = some "Unknown Player") ∧
    "Unknown Player" ≠ gameModeModelDefault := by
  have hrec : (save_score u (Body.wellFormed p) db).2.scores = db.scores ++
      [{ id := db.nextId, user := u, score := v, timestamp := db.clock,
         game_mode := p.game_mode.getD "Unknown Player",
         player_name := p.player_name.getD "Unknown Player" }] := by
    simp [save_score, jsonLoads, scoreCreate, hs]
  refine ⟨hrec, fun hm => ?_, by decide⟩
  rw [hrec, hm]
  simp

theorem omitted_game_mode_uses_placeholder_witness :
    (save_score 1 (Body.wellFormed
        { score := some 7, game_mode := none, player_name := none }) db0).2.scores =
      db0.scores ++
      [{ id := db0.nextId, user := 1, score := 7, timestamp := db0.clock,
         game_mode := "Unknown Player", player_name := "Unknown Player" }] ∧
    (((save_score 1 (Body.wellFormed
        { score := some 7, game_mode := none, player_name := none }) db0).2.scores.getLast?.map
        (fun s => s.game_mode)) = some "Unknown Player") ∧
    "Unknown Player" ≠ gameModeModelDefault :=
  ⟨(omitted_game_mode_uses_placeholder 1
      { score := some 7, game_mode := none, player_name := none } 7 db0 rfl).1,
   (omitted_game_mode_uses_placeholder 1
      { score := some 7, game_mode := none, player_name := none } 7 db0 rfl).2.1 rfl,
   (omitted_game_mode_uses_placeholder 1
      { score := some 7, game_mode := none, player_name := none } 7 db0 rfl).2.2⟩

end GameApp
